import Mathlib

/-!
Verification of the real-time location and navigation synchronization engine.

The definitions below are a shallow embedding of the TypeScript sources:

* `src/backend/src/realtime/server.ts` — the connection gateway's
  `party:update` (location update) handler: rate limiting, membership check,
  coordinate validation, ephemeral store write and broadcast.
* `src/app/lib/services/hazardService.ts` — the navigation state coordinator:
  `saveNavigationState` (upsert keyed by party), `subscribeToNavigationState`
  (the follower-side change handler) and `buildLocalNavigationState`.
* `src/app/app/map/page.tsx` (and its duplicate in the unnamed map page) —
  the MapPage leader gate (`handleNavigationFromSuggestion`) and the STEP 8
  progress effect (closest-step search, remaining distance/duration).
* `src/frontend/src/services/location.service.ts` — the position sampler:
  `updateMotionState`, `calculateDistance` (haversine),
  `startAdaptiveSampling`'s error branch and `parseGeolocationError`.
* `src/frontend/src/components/map/MapView.tsx` — the stale-position check.

JavaScript numbers are modelled as `ℚ` where only comparisons and defaulting
occur (the gateway handler) and as `ℝ` where transcendental functions are
involved (haversine, planar distances).  Timestamps (`Date.now()`) are `ℤ`
milliseconds.  `null`/`undefined` of optional values is `Option`.
-/

/-! ## Connection gateway: the `party:update` handler

From `src/backend/src/realtime/server.ts`, lines 216–317.  The handler runs,
in source order: (1) the rolling 1-second rate limit against
`socket.lastLocationUpdate`, advancing that timestamp as soon as the rate
check passes; (2) the party-membership check (`NOT_IN_PARTY` error);
(3) the coordinate range validation (`INVALID_LOCATION` error); (4) on
acceptance, the Redis store write and the broadcast to the party room.

`socket.lastLocationUpdate` starts out `undefined`; the guard
`if (socket.lastLocationUpdate && ...)` treats both `undefined` and `0` as
"never updated", so the field is modelled as an `ℤ` that is `0` until first
set.  The external collaborators (`PartyService.isUserInParty`, the
display-name lookup) are modelled as inputs carried by the event.
-/

structure LocationPayload where
  latitude : ℚ
  longitude : ℚ
  speed : Option ℚ
  heading : Option ℚ
  accuracy : Option ℚ
deriving DecidableEq

structure PartyUpdateEvent where
  /-- `Date.now()` at the moment the handler runs, in milliseconds. -/
  time : ℤ
  /-- Result of `PartyService.isUserInParty(data.partyId, userId)`. -/
  isMember : Bool
  /-- Result of the display-name lookup (`null` when the user row is absent). -/
  displayName : Option String
  location : LocationPayload
deriving DecidableEq

/-- JavaScript `x || 0` for a nullable number: `null`/`undefined` and `0`
are falsy and give `0`; any other number is returned unchanged. -/
def jsNumberOrZero (v : Option ℚ) : ℚ :=
  match v with
  | none => 0
  | some x => if x = 0 then 0 else x

/-- JavaScript `displayName || 'Unknown'`: `null` and the empty string are
falsy. -/
def jsNameOrUnknown (v : Option String) : String :=
  match v with
  | none => "Unknown"
  | some s => if s = "" then "Unknown" else s

/-- The argument of `PartyService.storeLocationUpdate` on acceptance. -/
structure StoredLocationUpdate where
  latitude : ℚ
  longitude : ℚ
  speed : ℚ
  heading : ℚ
  accuracy : ℚ
  timestamp : ℤ
deriving DecidableEq

/-- The `party:location-update` broadcast payload. -/
structure LocationBroadcast where
  displayName : String
  latitude : ℚ
  longitude : ℚ
  speed : ℚ
  heading : ℚ
  accuracy : ℚ
  timestamp : ℤ
deriving DecidableEq

def storedOf (e : PartyUpdateEvent) : StoredLocationUpdate :=
  { latitude := e.location.latitude
    longitude := e.location.longitude
    speed := jsNumberOrZero e.location.speed
    heading := jsNumberOrZero e.location.heading
    accuracy := jsNumberOrZero e.location.accuracy
    timestamp := e.time }

def broadcastOf (e : PartyUpdateEvent) : LocationBroadcast :=
  { displayName := jsNameOrUnknown e.displayName
    latitude := e.location.latitude
    longitude := e.location.longitude
    speed := jsNumberOrZero e.location.speed
    heading := jsNumberOrZero e.location.heading
    accuracy := jsNumberOrZero e.location.accuracy
    timestamp := e.time }

/-- Observable outcome of one `party:update` invocation. -/
inductive UpdateOutcome where
  /-- Early `return` inside the rate-limit guard: nothing stored, nothing
  broadcast, no error emitted. -/
  | dropped
  /-- `socket.emit('error', { code: 'NOT_IN_PARTY', ... })`. -/
  | errorNotInParty
  /-- `socket.emit('error', { code: 'INVALID_LOCATION', ... })`. -/
  | errorInvalidLocation
  /-- Store write plus broadcast to the party room. -/
  | accepted (stored : StoredLocationUpdate) (broadcast : LocationBroadcast)
deriving DecidableEq

def UpdateOutcome.isAccepted : UpdateOutcome → Bool
  | .accepted _ _ => true
  | _ => false

/-- Coordinate validation exactly as written in the handler
(`latitude < -90 || latitude > 90 || longitude < -180 || longitude > 180`). -/
def invalidCoordinates (l : LocationPayload) : Prop :=
  l.latitude < -90 ∨ 90 < l.latitude ∨ l.longitude < -180 ∨ 180 < l.longitude

instance (l : LocationPayload) : Decidable (invalidCoordinates l) := by
  unfold invalidCoordinates; infer_instance

/-- One run of the `party:update` handler.  The first component of the result
is the new `socket.lastLocationUpdate`, the second the observable outcome. -/
def handleLocationUpdate (lastLocationUpdate : ℤ) (e : PartyUpdateEvent) :
    ℤ × UpdateOutcome :=
  if lastLocationUpdate ≠ 0 ∧ e.time - lastLocationUpdate < 1000 then
    (lastLocationUpdate, .dropped)
  else if e.isMember = false then
    (e.time, .errorNotInParty)
  else if invalidCoordinates e.location then
    (e.time, .errorInvalidLocation)
  else
    (e.time, .accepted (storedOf e) (broadcastOf e))

/-- Sequential processing of the updates one connection sends, threading
`socket.lastLocationUpdate` through. -/
def processUpdates (lastLocationUpdate : ℤ) :
    List PartyUpdateEvent → ℤ × List UpdateOutcome
  | [] => (lastLocationUpdate, [])
  | e :: es =>
      let r := handleLocationUpdate lastLocationUpdate e
      let rest := processUpdates r.1 es
      (rest.1, r.2 :: rest.2)

/-- Outcomes of a trace of updates on a fresh connection
(`socket.lastLocationUpdate` initially unset). -/
def outcomesFrom (es : List PartyUpdateEvent) : List UpdateOutcome :=
  (processUpdates 0 es).2

def dummyUpdateEvent : PartyUpdateEvent :=
  { time := 0, isMember := false, displayName := none
    location := { latitude := 0, longitude := 0, speed := none
                  heading := none, accuracy := none } }

def evAt (es : List PartyUpdateEvent) (i : ℕ) : PartyUpdateEvent :=
  es.getD i dummyUpdateEvent

def outAt (es : List PartyUpdateEvent) (i : ℕ) : UpdateOutcome :=
  (outcomesFrom es).getD i .dropped

/-- Arrival times in a trace are nondecreasing (a single connection's
handlers run in the order the client sent them, against a monotone clock). -/
def TimesMonotone (es : List PartyUpdateEvent) : Prop :=
  es.Pairwise (fun a b => a.time ≤ b.time)

/-- Arrival times are positive (any real `Date.now()` value). -/
def TimesPositive (es : List PartyUpdateEvent) : Prop :=
  ∀ e ∈ es, 1 ≤ e.time

/-! ### Gateway lemmas -/

/-- What the handler does once the rate-limit guard has been passed. -/
def stepOutcome (e : PartyUpdateEvent) : UpdateOutcome :=
  if e.isMember = false then .errorNotInParty
  else if invalidCoordinates e.location then .errorInvalidLocation
  else .accepted (storedOf e) (broadcastOf e)

lemma handleLocationUpdate_eq (l : ℤ) (e : PartyUpdateEvent) :
    handleLocationUpdate l e =
      if l ≠ 0 ∧ e.time - l < 1000 then (l, .dropped) else (e.time, stepOutcome e) := by
  unfold handleLocationUpdate stepOutcome
  split
  · rfl
  · split
    · rfl
    · split <;> rfl

lemma handleLocationUpdate_fst (l : ℤ) (e : PartyUpdateEvent) :
    (handleLocationUpdate l e).1 = l ∨ (handleLocationUpdate l e).1 = e.time := by
  rw [handleLocationUpdate_eq]; split <;> simp

lemma handleLocationUpdate_not_dropped_fst (l : ℤ) (e : PartyUpdateEvent)
    (h : (handleLocationUpdate l e).2 ≠ .dropped) :
    (handleLocationUpdate l e).1 = e.time := by
  rw [handleLocationUpdate_eq] at h ⊢
  by_cases hc : l ≠ 0 ∧ e.time - l < 1000
  · rw [if_pos hc] at h; simp at h
  · rw [if_neg hc]

lemma handleLocationUpdate_window (l : ℤ) (e : PartyUpdateEvent)
    (hl : 1 ≤ l) (ht : e.time < l + 1000) :
    handleLocationUpdate l e = (l, .dropped) := by
  rw [handleLocationUpdate_eq, if_pos]
  exact ⟨by omega, by omega⟩

lemma processUpdates_cons (l : ℤ) (e : PartyUpdateEvent) (es : List PartyUpdateEvent) :
    (processUpdates l (e :: es)).2 =
      (handleLocationUpdate l e).2 :: (processUpdates (handleLocationUpdate l e).1 es).2 := by
  simp [processUpdates]

/-- Every outcome of a trace is either a silent drop or the outcome the
post-rate-limit part of the handler computes for that event. -/
lemma outcome_shape (es : List PartyUpdateEvent) : ∀ (l : ℤ) (i : ℕ),
    (processUpdates l es).2.getD i .dropped = .dropped ∨
    (processUpdates l es).2.getD i .dropped = stepOutcome (es.getD i dummyUpdateEvent) := by
  induction es with
  | nil => intro l i; left; simp [processUpdates]
  | cons e es ih =>
    intro l i
    rw [processUpdates_cons]
    cases i with
    | zero =>
      rw [handleLocationUpdate_eq]
      split <;> simp
    | succ i => simpa using ih (handleLocationUpdate l e).1 i

/-- Once `socket.lastLocationUpdate` holds a positive time `l`, every update
of a time-ordered trace arriving before `l + 1000` is silently dropped. -/
lemma dropped_in_window (es : List PartyUpdateEvent) : ∀ (l : ℤ), 1 ≤ l →
    (∀ e ∈ es, l ≤ e.time) → TimesMonotone es →
    ∀ k, k < es.length → (es.getD k dummyUpdateEvent).time < l + 1000 →
    (processUpdates l es).2.getD k .dropped = .dropped := by
  induction es with
  | nil => intro l _ _ _ k hk; simp at hk
  | cons e es ih =>
    intro l hl hmin hmono k hk ht
    rw [TimesMonotone, List.pairwise_cons] at hmono
    rw [processUpdates_cons]
    cases k with
    | zero =>
      have hfire := handleLocationUpdate_window l e hl (by simpa using ht)
      rw [hfire]
      rfl
    | succ k =>
      have hk' : k < es.length := by simpa using hk
      have ht' : (es.getD k dummyUpdateEvent).time < l + 1000 := by simpa using ht
      by_cases he : e.time < l + 1000
      · have hfire := handleLocationUpdate_window l e hl he
        rw [hfire]
        simpa using ih l hl (fun x hx => hmin x (List.mem_cons_of_mem e hx))
          hmono.2 k hk' ht'
      · exfalso
        have hmem : es.getD k dummyUpdateEvent ∈ es := by
          rw [List.getD_eq_getElem _ _ hk']
          exact List.getElem_mem hk'
        have := hmono.1 _ hmem
        omega

/-- Any update that passed the rate-limit guard (whatever its final outcome)
consumes the rolling window: in a positive, time-ordered trace, every later
update arriving within 1000 ms of it is silently dropped. -/
lemma window_consumed (es : List PartyUpdateEvent) : ∀ (l : ℤ), (l = 0 ∨ 1 ≤ l) →
    TimesPositive es → (∀ e ∈ es, l ≤ e.time) → TimesMonotone es →
    ∀ i j, i < j → j < es.length →
    (processUpdates l es).2.getD i .dropped ≠ .dropped →
    (es.getD j dummyUpdateEvent).time < (es.getD i dummyUpdateEvent).time + 1000 →
    (processUpdates l es).2.getD j .dropped = .dropped := by
  induction es with
  | nil => intro l _ _ _ _ i j _ hj; simp at hj
  | cons e es ih =>
    intro l hl hpos hmin hmono i j hij hj hi ht
    have hpos' : TimesPositive es := fun x hx => hpos x (List.mem_cons_of_mem e hx)
    rw [TimesMonotone, List.pairwise_cons] at hmono
    rw [processUpdates_cons] at hi ⊢
    cases i with
    | zero =>
      have hfst : (handleLocationUpdate l e).1 = e.time := by
        apply handleLocationUpdate_not_dropped_fst
        simpa using hi
      obtain ⟨j', rfl⟩ : ∃ j', j = j' + 1 := ⟨j - 1, by omega⟩
      have hj' : j' < es.length := by simpa using hj
      have hpe : 1 ≤ e.time := hpos e (List.mem_cons_self e es)
      simp only [List.getD_cons_succ]
      rw [hfst]
      exact dropped_in_window es e.time hpe hmono.1 hmono.2 j' hj' (by simpa using ht)
    | succ i =>
      obtain ⟨j', rfl⟩ : ∃ j', j = j' + 1 := ⟨j - 1, by omega⟩
      have hj' : j' < es.length := by simpa using hj
      have hfst := handleLocationUpdate_fst l e
      have hl' : (handleLocationUpdate l e).1 = 0 ∨ 1 ≤ (handleLocationUpdate l e).1 := by
        rcases hfst with h | h <;> rw [h]
        · exact hl
        · exact Or.inr (hpos e (List.mem_cons_self e es))
      have hmin' : ∀ x ∈ es, (handleLocationUpdate l e).1 ≤ x.time := by
        intro x hx
        rcases hfst with h | h <;> rw [h]
        · exact hmin x (List.mem_cons_of_mem e hx)
        · exact hmono.1 x hx
      simp only [List.getD_cons_succ] at hi ht ⊢
      exact ih (handleLocationUpdate l e).1 hl' hpos' hmin' hmono.2 i j'
        (by omega) hj' hi ht

instance : DecidableRel (fun a b : PartyUpdateEvent => a.time ≤ b.time) :=
  fun a b => Int.decLe a.time b.time

instance (es : List PartyUpdateEvent) : Decidable (TimesMonotone es) := by
  unfold TimesMonotone; infer_instance

instance (es : List PartyUpdateEvent) : Decidable (TimesPositive es) := by
  unfold TimesPositive; infer_instance

lemma jsNumberOrZero_eq_getD (v : Option ℚ) : jsNumberOrZero v = v.getD 0 := by
  cases v with
  | none => rfl
  | some x =>
    simp only [jsNumberOrZero, Option.getD_some]
    split
    · rename_i h; exact h.symm
    · rfl

/-! ### Claim theorems about the gateway -/

/-- Claim C2: in any positive, time-ordered sequence of location updates from
one user over one connection, (1) any two accepted (stored and broadcast)
updates are at least 1 second apart, and (2) an update arriving sooner than
1 second after an accepted one is dropped silently — its outcome is the
rate-limit early return, which emits no error event to the sender. -/
theorem rateLimit_min_spacing (es : List PartyUpdateEvent)
    (hpos : TimesPositive es) (hmono : TimesMonotone es) :
    (∀ i j, i < j → j < es.length →
      (outAt es i).isAccepted = true → (outAt es j).isAccepted = true →
      (evAt es i).time + 1000 ≤ (evAt es j).time) ∧
    (∀ i j, i < j → j < es.length →
      (outAt es i).isAccepted = true →
      (evAt es j).time < (evAt es i).time + 1000 →
      outAt es j = .dropped) := by
  have hmain : ∀ i j, i < j → j < es.length → (outAt es i).isAccepted = true →
      (evAt es j).time < (evAt es i).time + 1000 → outAt es j = .dropped := by
    intro i j hij hj hi ht
    have hi' : (processUpdates 0 es).2.getD i .dropped ≠ .dropped := by
      simp only [outAt, outcomesFrom] at hi
      intro h
      rw [h] at hi
      simp [UpdateOutcome.isAccepted] at hi
    have := window_consumed es 0 (Or.inl rfl) hpos
      (fun e he => le_trans (by norm_num) (hpos e he)) hmono i j hij hj hi'
      (by simpa [evAt] using ht)
    simpa [outAt, outcomesFrom] using this
  refine ⟨?_, hmain⟩
  intro i j hij hj hi hj'
  by_contra hcon
  push_neg at hcon
  have := hmain i j hij hj hi hcon
  rw [outAt] at hj' this
  rw [this] at hj'
  simp [UpdateOutcome.isAccepted] at hj'

def demoRateTrace : List PartyUpdateEvent :=
  [ { time := 1000, isMember := true, displayName := some "Alice"
      location := { latitude := 51, longitude := 0, speed := some 1
                    heading := none, accuracy := some 5 } }
  , { time := 2000, isMember := true, displayName := some "Alice"
      location := { latitude := 52, longitude := -1, speed := some 2
                    heading := some 90, accuracy := some 5 } }
  , { time := 2500, isMember := true, displayName := some "Alice"
      location := { latitude := 53, longitude := -2, speed := some 2
                    heading := some 90, accuracy := some 5 } } ]

/-- Witness for C2: on a concrete three-update trace (1000 ms, 2000 ms,
2500 ms) the first two updates are accepted exactly 1000 ms apart and the
third, 500 ms after the second, is silently dropped. -/
theorem rateLimit_min_spacing_witness :
    (outAt demoRateTrace 0).isAccepted = true ∧
    (outAt demoRateTrace 1).isAccepted = true ∧
    (evAt demoRateTrace 0).time + 1000 ≤ (evAt demoRateTrace 1).time ∧
    outAt demoRateTrace 2 = .dropped := by
  have h := rateLimit_min_spacing demoRateTrace (by decide) (by decide)
  exact ⟨by decide, by decide,
    h.1 0 1 (by decide) (by decide) (by decide) (by decide),
    h.2 1 2 (by decide) (by decide) (by decide) (by decide)⟩

/-- Claim C9 (implicit): `socket.lastLocationUpdate` is advanced before the
membership and coordinate checks, so an update rejected with `NOT_IN_PARTY`
or `INVALID_LOCATION` still consumes the rolling 1-second window: any later
update arriving within 1000 ms of the rejected one — however well-formed —
is silently dropped. -/
theorem rejected_update_consumes_window (es : List PartyUpdateEvent)
    (hpos : TimesPositive es) (hmono : TimesMonotone es) :
    ∀ i j, i < j → j < es.length →
    (outAt es i = .errorNotInParty ∨ outAt es i = .errorInvalidLocation) →
    (evAt es j).time < (evAt es i).time + 1000 →
    outAt es j = .dropped := by
  intro i j hij hj hi ht
  have hi' : (processUpdates 0 es).2.getD i .dropped ≠ .dropped := by
    simp only [outAt, outcomesFrom] at hi
    rcases hi with h | h <;> rw [h] <;> intro hcon <;> exact absurd hcon (by simp)
  have := window_consumed es 0 (Or.inl rfl) hpos
    (fun e he => le_trans (by norm_num) (hpos e he)) hmono i j hij hj hi'
    (by simpa [evAt] using ht)
  simpa [outAt, outcomesFrom] using this

def demoRejectTrace : List PartyUpdateEvent :=
  [ { time := 1000, isMember := false, displayName := some "Bob"
      location := { latitude := 10, longitude := 20, speed := none
                    heading := none, accuracy := none } }
  , { time := 1500, isMember := true, displayName := some "Bob"
      location := { latitude := 10, longitude := 20, speed := some 3
                    heading := some 45, accuracy := some 4 } } ]

/-- Witness for C9: a non-member update at 1000 ms draws `NOT_IN_PARTY`, and
a perfectly valid member update 500 ms later is silently dropped. -/
theorem rejected_update_consumes_window_witness :
    outAt demoRejectTrace 0 = .errorNotInParty ∧
    outAt demoRejectTrace 1 = .dropped := by
  refine ⟨by decide, ?_⟩
  exact rejected_update_consumes_window demoRejectTrace (by decide) (by decide)
    0 1 (by decide) (by decide) (Or.inl (by decide)) (by decide)

/-- Claim C5 (amended): in the `party:update` handler the rate limit runs
FIRST; only an update that passes the rolling 1-second window reaches
validation.  Among updates that pass the window, a non-member always draws
`NOT_IN_PARTY`, a member with an out-of-range coordinate always draws
`INVALID_LOCATION` (membership is checked before coordinates), and a member
with in-range coordinates is accepted. -/
theorem validation_after_rate_limit (es : List PartyUpdateEvent) (i : ℕ)
    (h : outAt es i ≠ .dropped) :
    ((evAt es i).isMember = false → outAt es i = .errorNotInParty) ∧
    ((evAt es i).isMember = true → invalidCoordinates (evAt es i).location →
      outAt es i = .errorInvalidLocation) ∧
    ((evAt es i).isMember = true → ¬ invalidCoordinates (evAt es i).location →
      outAt es i = .accepted (storedOf (evAt es i)) (broadcastOf (evAt es i))) := by
  rcases outcome_shape es 0 i with hd | hs
  · exact absurd hd h
  · have hs' : outAt es i = stepOutcome (evAt es i) := hs
    rw [hs']
    refine ⟨?_, ?_, ?_⟩
    · intro hm; simp [stepOutcome, hm]
    · intro hm hinv; simp [stepOutcome, hm, hinv]
    · intro hm hinv; simp [stepOutcome, hm, hinv]

def demoInvalidAfterAccept : List PartyUpdateEvent :=
  [ { time := 1000, isMember := true, displayName := some "Carol"
      location := { latitude := 10, longitude := 20, speed := some 1
                    heading := none, accuracy := none } }
  , { time := 1500, isMember := true, displayName := some "Carol"
      location := { latitude := 200, longitude := 20, speed := some 1
                    heading := none, accuracy := none } } ]

/-- Counterexample to C5 as stated: an update with latitude 200 (outside
[-90, 90]) arriving 500 ms after an accepted update is silently dropped by
the rate limiter — no `INVALID_LOCATION` error is ever emitted for it, so
validation does not precede rate limiting. -/
theorem validation_after_rate_limit_counterexample :
    (evAt demoInvalidAfterAccept 1).location.latitude = 200 ∧
    (evAt demoInvalidAfterAccept 1).isMember = true ∧
    (outAt demoInvalidAfterAccept 0).isAccepted = true ∧
    outAt demoInvalidAfterAccept 1 = .dropped ∧
    outAt demoInvalidAfterAccept 1 ≠ .errorInvalidLocation := by
  refine ⟨by decide, by decide, by decide, by decide, by decide⟩

def demoLoneInvalid : List PartyUpdateEvent :=
  [ { time := 1000, isMember := true, displayName := some "Carol"
      location := { latitude := 200, longitude := 20, speed := some 1
                    heading := none, accuracy := none } } ]

/-- Witness for the amended C5: a first update with latitude 200 passes the
(virgin) rate-limit window and draws `INVALID_LOCATION`. -/
theorem validation_after_rate_limit_witness :
    outAt demoLoneInvalid 0 = .errorInvalidLocation := by
  exact (validation_after_rate_limit demoLoneInvalid 0 (by decide)).2.1
    (by decide) (by decide)

/-- Claim C10 (implicit): whenever an update is accepted, a missing/null
`speed`, `heading` or `accuracy` has been replaced by `0` — via JavaScript
`x || 0` — both in the sample handed to the ephemeral store and in the
broadcast sent to the party, so subscribers never see a null value for
these fields. -/
theorem optional_fields_coerced_to_zero (es : List PartyUpdateEvent) (i : ℕ)
    (s : StoredLocationUpdate) (b : LocationBroadcast)
    (h : outAt es i = .accepted s b) :
    s.speed = ((evAt es i).location.speed).getD 0 ∧
    s.heading = ((evAt es i).location.heading).getD 0 ∧
    s.accuracy = ((evAt es i).location.accuracy).getD 0 ∧
    b.speed = ((evAt es i).location.speed).getD 0 ∧
    b.heading = ((evAt es i).location.heading).getD 0 ∧
    b.accuracy = ((evAt es i).location.accuracy).getD 0 := by
  have hshape := outcome_shape es 0 i
  rw [outAt, outcomesFrom] at h
  rcases hshape with hd | hs
  · rw [h] at hd; exact absurd hd (by simp)
  · rw [h] at hs
    have : stepOutcome (evAt es i) = .accepted s b := by rw [evAt]; exact hs.symm
    unfold stepOutcome at this
    split at this
    · exact absurd this (by simp)
    · split at this
      · exact absurd this (by simp)
      · obtain ⟨hs', hb'⟩ : storedOf (evAt es i) = s ∧ broadcastOf (evAt es i) = b := by
          injection this with h1 h2; exact ⟨h1, h2⟩
        subst hs'; subst hb'
        simp [storedOf, broadcastOf, jsNumberOrZero_eq_getD]

def demoMissingFields : List PartyUpdateEvent :=
  [ { time := 1000, isMember := true, displayName := none
      location := { latitude := 45, longitude := 90, speed := none
                    heading := none, accuracy := some 7 } } ]

/-- Witness for C10: a member update with null speed/heading is accepted and
both the stored sample and the broadcast carry zeros for the missing fields
(and the provided accuracy unchanged). -/
theorem optional_fields_coerced_to_zero_witness :
    (storedOf (evAt demoMissingFields 0)).speed =
      ((evAt demoMissingFields 0).location.speed).getD 0 ∧
    (storedOf (evAt demoMissingFields 0)).heading =
      ((evAt demoMissingFields 0).location.heading).getD 0 ∧
    (storedOf (evAt demoMissingFields 0)).accuracy =
      ((evAt demoMissingFields 0).location.accuracy).getD 0 ∧
    (broadcastOf (evAt demoMissingFields 0)).speed =
      ((evAt demoMissingFields 0).location.speed).getD 0 ∧
    (broadcastOf (evAt demoMissingFields 0)).heading =
      ((evAt demoMissingFields 0).location.heading).getD 0 ∧
    (broadcastOf (evAt demoMissingFields 0)).accuracy =
      ((evAt demoMissingFields 0).location.accuracy).getD 0 := by
  exact optional_fields_coerced_to_zero demoMissingFields 0
    (storedOf (evAt demoMissingFields 0)) (broadcastOf (evAt demoMissingFields 0))
    (by decide)

/-! ## Navigation state coordinator

From `src/app/lib/services/hazardService.ts` (rows, `mapToNavigationState`,
`saveNavigationState`, `subscribeToNavigationState`,
`buildLocalNavigationState`) and the MapPage subscription effect, which
passes every value the subscription delivers straight to
`setNavigationState`.  The persisted `party_navigation_states` table is
modelled as a map from party id to row; the upsert (`onConflict:
'party_id'`) keeps a single row per party.  The database-managed
`created_at`/`updated_at` columns appear as an input `dbNow`; the row has
no version column (`route_geojson` and lane hints are omitted — nothing
reads them in the modelled paths). -/

/-- One entry of the `steps` array built by `buildNavigationSteps`. -/
structure NavigationStepData where
  instruction : String
  distance : ℝ
  duration : ℝ
  name : Option String
  maneuverType : Option String
  maneuverModifier : Option String
  /-- `[lng, lat]` maneuver anchor. -/
  maneuverLocation : ℝ × ℝ
  geometry : List (ℝ × ℝ)

/-- A row of `party_navigation_states`. -/
structure NavigationRow where
  party_id : String
  created_by : String
  destination_name : String
  destination_address : Option String
  destination_lat : ℝ
  destination_lng : ℝ
  distance_meters : ℝ
  duration_seconds : ℝ
  steps : List NavigationStepData
  is_active : Bool
  created_at : ℤ
  updated_at : ℤ

structure PartyNavigationState where
  party_id : Option String
  created_by : String
  destination_name : String
  destination_address : Option String
  /-- `[lng, lat]`. -/
  destination_coordinates : ℝ × ℝ
  distance_meters : ℝ
  duration_seconds : ℝ
  steps : List NavigationStepData
  is_active : Bool
  created_at : ℤ
  updated_at : ℤ

def mapToNavigationState (row : NavigationRow) : PartyNavigationState :=
  { party_id := some row.party_id
    created_by := row.created_by
    destination_name := row.destination_name
    destination_address := row.destination_address
    destination_coordinates := (row.destination_lng, row.destination_lat)
    distance_meters := row.distance_meters
    duration_seconds := row.duration_seconds
    steps := row.steps
    is_active := row.is_active
    created_at := row.created_at
    updated_at := row.updated_at }

/-- The payload `computeNavigationPayload` assembles before saving. -/
structure ComputedNavigationPayload where
  destinationName : String
  destinationAddress : Option String
  /-- `[lng, lat]`. -/
  destinationCoordinates : ℝ × ℝ
  distanceMeters : ℝ
  durationSeconds : ℝ
  steps : List NavigationStepData

/-- The row `saveNavigationState` upserts: the full state, `is_active :=
true`, keyed by `party_id` — there is no version field to stamp. -/
def buildUpsertRow (partyId userId : String) (payload : ComputedNavigationPayload)
    (dbNow : ℤ) : NavigationRow :=
  { party_id := partyId
    created_by := userId
    destination_name := payload.destinationName
    destination_address := payload.destinationAddress
    destination_lat := payload.destinationCoordinates.2
    destination_lng := payload.destinationCoordinates.1
    distance_meters := payload.distanceMeters
    duration_seconds := payload.durationSeconds
    steps := payload.steps
    is_active := true
    created_at := dbNow
    updated_at := dbNow }

/-- `saveNavigationState`: upsert with `onConflict: 'party_id'` (wholesale
replacement of the single row for the party), returning the mapped state. -/
def saveNavigationState (store : String → Option NavigationRow)
    (partyId userId : String) (payload : ComputedNavigationPayload) (dbNow : ℤ) :
    (String → Option NavigationRow) × PartyNavigationState :=
  ( fun pid => if pid = partyId then some (buildUpsertRow partyId userId payload dbNow)
               else store pid
  , mapToNavigationState (buildUpsertRow partyId userId payload dbNow) )

/-- `buildLocalNavigationState` (solo mode, `party_id: null`). -/
def buildLocalNavigationState (userId : String) (payload : ComputedNavigationPayload)
    (now : ℤ) : PartyNavigationState :=
  { party_id := none
    created_by := userId
    destination_name := payload.destinationName
    destination_address := payload.destinationAddress
    destination_coordinates := payload.destinationCoordinates
    distance_meters := payload.distanceMeters
    duration_seconds := payload.durationSeconds
    steps := payload.steps
    is_active := true
    created_at := now
    updated_at := now }

inductive RealtimeEventType where
  | INSERT
  | UPDATE
  | DELETE
deriving DecidableEq

/-- A `postgres_changes` payload as seen by `subscribeToNavigationState`. -/
structure NavigationRealtimePayload where
  eventType : RealtimeEventType
  new : Option NavigationRow

/-- The `subscribeToNavigationState` change handler: `DELETE` clears, a
missing or inactive row clears, everything else maps the row — no version
or timestamp comparison whatsoever. -/
def navigationChangeHandler (p : NavigationRealtimePayload) :
    Option PartyNavigationState :=
  match p.eventType with
  | .DELETE => none
  | _ =>
    match p.new with
    | none => none
    | some row => if row.is_active then some (mapToNavigationState row) else none

/-- The MapPage subscription effect feeds the handler's value straight to
`setNavigationState`, replacing whatever the follower had applied. -/
def applyNavigationEvent (_current : Option PartyNavigationState)
    (p : NavigationRealtimePayload) : Option PartyNavigationState :=
  navigationChangeHandler p

def rowNewer : NavigationRow :=
  { party_id := "party-1", created_by := "leader-1", destination_name := "Cafe"
    destination_address := none, destination_lat := 2, destination_lng := 1
    distance_meters := 500, duration_seconds := 60, steps := []
    is_active := true, created_at := 1000, updated_at := 2000 }

def rowOlder : NavigationRow :=
  { party_id := "party-1", created_by := "leader-1", destination_name := "Museum"
    destination_address := none, destination_lat := 4, destination_lng := 3
    distance_meters := 900, duration_seconds := 120, steps := []
    is_active := true, created_at := 1000, updated_at := 1000 }

/-- Counterexample to C1: a follower that has applied the navigation state
with version timestamp 2000 and then receives the state with version
timestamp 1000 applies it — the older-versioned update is not discarded
(there is no version stamp beyond the row's `updated_at`, and the
subscription handler never compares it). -/
theorem navigation_version_monotonicity_counterexample :
    applyNavigationEvent
        (applyNavigationEvent none ⟨.INSERT, some rowNewer⟩)
        ⟨.UPDATE, some rowOlder⟩ = some (mapToNavigationState rowOlder) ∧
    (mapToNavigationState rowOlder).updated_at <
      (mapToNavigationState rowNewer).updated_at := by
  exact ⟨rfl, by norm_num [mapToNavigationState, rowOlder, rowNewer]⟩

/-- Claim C1 (amended): `saveNavigationState` stamps no version — it
wholesale-replaces the party's single row, independent of what was stored
before — and a follower applies every received state unconditionally: the
handler's result does not depend on the state already applied, and any
active row is applied even when it is older than the applied one. -/
theorem navigation_no_version_check :
    (∀ (store store' : String → Option NavigationRow) (partyId userId : String)
        (payload : ComputedNavigationPayload) (dbNow : ℤ),
      (saveNavigationState store partyId userId payload dbNow).1 partyId =
        (saveNavigationState store' partyId userId payload dbNow).1 partyId) ∧
    (∀ (s s' : Option PartyNavigationState) (p : NavigationRealtimePayload),
      applyNavigationEvent s p = applyNavigationEvent s' p) ∧
    (∀ (s : Option PartyNavigationState) (p : NavigationRealtimePayload)
        (row : NavigationRow),
      p.eventType ≠ .DELETE → p.new = some row → row.is_active = true →
      applyNavigationEvent s p = some (mapToNavigationState row)) := by
  refine ⟨?_, ?_, ?_⟩
  · intro store store' partyId userId payload dbNow
    simp [saveNavigationState]
  · intro s s' p
    rfl
  · intro s p row hne hrow hactive
    obtain ⟨et, n⟩ := p
    cases et with
    | DELETE => exact absurd rfl hne
    | INSERT =>
      simp only at hrow
      subst hrow
      simp [applyNavigationEvent, navigationChangeHandler, hactive]
    | UPDATE =>
      simp only at hrow
      subst hrow
      simp [applyNavigationEvent, navigationChangeHandler, hactive]

/-- Witness for the amended C1: a follower holding the newer state applies
the older row delivered afterwards. -/
theorem navigation_no_version_check_witness :
    applyNavigationEvent (some (mapToNavigationState rowNewer))
      ⟨.UPDATE, some rowOlder⟩ = some (mapToNavigationState rowOlder) :=
  navigation_no_version_check.2.2 (some (mapToNavigationState rowNewer))
    ⟨.UPDATE, some rowOlder⟩ rowOlder (by decide) rfl rfl

/-! ## MapPage leader gate

From `src/app/app/map/page.tsx` (duplicated in the unnamed map page):
`canSelectDestination = !userPartyId || isPartyLeader`, where
`isPartyLeader` is set in the initialize effect to
`partyRecord?.created_by === user.id`, and
`handleNavigationFromSuggestion` returns early with a navigation error —
before any route computation or database write — when the gate fails.
`getDrivingRoute` (an external HTTP call) is modelled as succeeding with
the given payload; its failure path only sets a different error text and
is irrelevant to the leader gate. -/

structure PartyRecord where
  id : String
  name : Option String
  created_by : String
  is_active : Bool

/-- `setIsPartyLeader(partyRecord?.created_by === user.id)`. -/
def isPartyLeaderOf (partyRecord : Option PartyRecord) (userId : String) : Bool :=
  match partyRecord with
  | some p => decide (p.created_by = userId)
  | none => false

/-- `const canSelectDestination = !userPartyId || isPartyLeader`. -/
def canSelectDestinationOf (userPartyId : Option String) (isPartyLeader : Bool) :
    Bool :=
  userPartyId.isNone || isPartyLeader

/-- Observable result of one `handleNavigationFromSuggestion` call:
the error state set, the resulting local navigation state, and the
`saveNavigationState` call made (none = no database write). -/
structure NavigationAttempt where
  navigationError : Option String
  navigationState : Option PartyNavigationState
  savedUpsert : Option (String × String)

def handleNavigationFromSuggestion (userPartyId : Option String)
    (isPartyLeader : Bool) (currentLocation : Option (ℝ × ℝ))
    (userId : Option String) (prior : Option PartyNavigationState)
    (payload : ComputedNavigationPayload) (dbNow : ℤ) : NavigationAttempt :=
  if canSelectDestinationOf userPartyId isPartyLeader = false then
    { navigationError := some "Only the party leader can set the party destination."
      navigationState := prior
      savedUpsert := none }
  else
    match currentLocation with
    | none =>
      { navigationError := some "Waiting for your current location..."
        navigationState := prior
        savedUpsert := none }
    | some _ =>
      match userId with
      | none =>
        { navigationError := some "User not authenticated"
          navigationState := prior
          savedUpsert := none }
      | some uid =>
        match userPartyId, isPartyLeader with
        | some pid, true =>
          { navigationError := none
            navigationState :=
              some (mapToNavigationState (buildUpsertRow pid uid payload dbNow))
            savedUpsert := some (pid, uid) }
        | _, _ =>
          { navigationError := none
            navigationState := some (buildLocalNavigationState uid payload dbNow)
            savedUpsert := none }

/-- Claim C3: when the requester is not the party's recorded leader
(`created_by`), setting a destination fails with the leader-gate error,
reported to the requester; the local navigation state is unchanged and no
`saveNavigationState` upsert happens, so the stored and published state is
untouched. -/
theorem leader_gate_on_navigation_writes (party : PartyRecord) (requester : String)
    (hne : party.created_by ≠ requester) (loc : Option (ℝ × ℝ))
    (uid : Option String) (prior : Option PartyNavigationState)
    (payload : ComputedNavigationPayload) (dbNow : ℤ) :
    handleNavigationFromSuggestion (some party.id)
        (isPartyLeaderOf (some party) requester) loc uid prior payload dbNow =
      { navigationError := some "Only the party leader can set the party destination."
        navigationState := prior
        savedUpsert := none } := by
  have hlead : isPartyLeaderOf (some party) requester = false := by
    simp [isPartyLeaderOf, hne]
  unfold handleNavigationFromSuggestion
  rw [hlead]
  simp [canSelectDestinationOf]

def demoParty : PartyRecord :=
  { id := "party-1", name := some "Road trip", created_by := "leader-1"
    is_active := true }

def demoPayload : ComputedNavigationPayload :=
  { destinationName := "Cafe", destinationAddress := none
    destinationCoordinates := (1, 2), distanceMeters := 500
    durationSeconds := 60, steps := [] }

/-- Witness for C3: member `user-2` of a party led by `leader-1` tries to
set a destination and gets the leader-gate error with no state change and
no database write. -/
theorem leader_gate_on_navigation_writes_witness :
    handleNavigationFromSuggestion (some demoParty.id)
        (isPartyLeaderOf (some demoParty) "user-2") none (some "user-2") none
        demoPayload 0 =
      { navigationError := some "Only the party leader can set the party destination."
        navigationState := none
        savedUpsert := none } :=
  leader_gate_on_navigation_writes demoParty "user-2" (by decide) none
    (some "user-2") none demoPayload 0

/-! ## Progress tracker (MapPage STEP 8 effect)

From `src/app/app/map/page.tsx` lines 421–455 (identical in the unnamed map
page): a forward scan over `navigationState.steps` carrying
`closestIndex`/`closestDistance`, starting from index 0 and
`Number.POSITIVE_INFINITY`, updating on strictly smaller planar distance
`Math.sqrt((loc[1]-stepLat)^2 + (loc[0]-stepLng)^2)`; then
`remainingSteps = steps.slice(closestIndex)` and `reduce`-sums of their
`distance`/`duration`.  The `POSITIVE_INFINITY` seed is modelled as
`Option ℝ` being `none` — every real distance compares below it, exactly as
the first loop iteration always updates. -/

def defaultNavigationStep : NavigationStepData :=
  { instruction := "", distance := 0, duration := 0, name := none
    maneuverType := none, maneuverModifier := none
    maneuverLocation := (0, 0), geometry := [] }

/-- `Math.sqrt(Math.pow(loc[1]-stepLat,2) + Math.pow(loc[0]-stepLng,2))`
with `loc = [lng, lat]`. -/
noncomputable def stepPlanarDistance (loc : ℝ × ℝ) (step : NavigationStepData) : ℝ :=
  Real.sqrt ((loc.2 - step.maneuverLocation.2) ^ 2 +
    (loc.1 - step.maneuverLocation.1) ^ 2)

/-- The forEach loop: accumulator `(closestIndex, closestDistance)`, `i` the
index of the next element. -/
noncomputable def closestStepFold (loc : ℝ × ℝ) :
    ℕ × Option ℝ → ℕ → List NavigationStepData → ℕ × Option ℝ
  | acc, _, [] => acc
  | acc, i, step :: rest =>
    let d := stepPlanarDistance loc step
    match acc.2 with
    | none => closestStepFold loc (i, some d) (i + 1) rest
    | some best =>
      if d < best then closestStepFold loc (i, some d) (i + 1) rest
      else closestStepFold loc acc (i + 1) rest

noncomputable def closestStepIndex (steps : List NavigationStepData)
    (loc : ℝ × ℝ) : ℕ :=
  (closestStepFold loc (0, none) 0 steps).1

/-- `remainingSteps.reduce((sum, step) => sum + step.distance, 0)` over
`steps.slice(closestIndex)`. -/
noncomputable def remainingDistance (steps : List NavigationStepData)
    (loc : ℝ × ℝ) : ℝ :=
  (steps.drop (closestStepIndex steps loc)).foldl
    (fun sum step => sum + step.distance) 0

noncomputable def remainingDuration (steps : List NavigationStepData)
    (loc : ℝ × ℝ) : ℝ :=
  (steps.drop (closestStepIndex steps loc)).foldl
    (fun sum step => sum + step.duration) 0

lemma foldl_add_eq_sum (f : NavigationStepData → ℝ) :
    ∀ (l : List NavigationStepData) (c : ℝ),
    l.foldl (fun sum step => sum + f step) c = c + (l.map f).sum := by
  intro l
  induction l with
  | nil => intro c; simp
  | cons s l ih =>
    intro c
    simp only [List.foldl_cons, List.map_cons, List.sum_cons]
    rw [ih]
    ring

/-- Invariant of the scan once `closestDistance` is a real number: the final
best distance is no larger than the incoming one nor than any remaining
step's distance, and the final index either is the incoming one (with its
distance) or points at one of the remaining steps (absolutely indexed). -/
lemma closestStepFold_spec (loc : ℝ × ℝ) :
    ∀ (rest : List NavigationStepData) (bi i : ℕ) (b : ℝ),
    ∃ rb, closestStepFold loc (bi, some b) i rest =
        ((closestStepFold loc (bi, some b) i rest).1, some rb) ∧
      rb ≤ b ∧ (∀ s ∈ rest, rb ≤ stepPlanarDistance loc s) ∧
      (((closestStepFold loc (bi, some b) i rest).1 = bi ∧ rb = b) ∨
        (∃ k, k < rest.length ∧
          (closestStepFold loc (bi, some b) i rest).1 = i + k ∧
          rb = stepPlanarDistance loc (rest.getD k defaultNavigationStep))) := by
  intro rest
  induction rest with
  | nil =>
    intro bi i b
    exact ⟨b, rfl, le_refl b, by simp, Or.inl ⟨rfl, rfl⟩⟩
  | cons step rest ih =>
    intro bi i b
    by_cases hd : stepPlanarDistance loc step < b
    · have hfold : closestStepFold loc (bi, some b) i (step :: rest) =
          closestStepFold loc (i, some (stepPlanarDistance loc step)) (i + 1) rest := by
        simp only [closestStepFold]
        rw [if_pos hd]
      obtain ⟨rb, heq, hle, hall, hidx⟩ := ih i (i + 1) (stepPlanarDistance loc step)
      rw [hfold]
      refine ⟨rb, heq, le_of_lt (lt_of_le_of_lt hle hd), ?_, ?_⟩
      · intro s hs
        rcases List.mem_cons.mp hs with rfl | hs'
        · exact le_trans hle (le_refl _)
        · exact hall s hs'
      · rcases hidx with ⟨h1, h2⟩ | ⟨k, hk, h1, h2⟩
        · exact Or.inr ⟨0, by simp, by omega, by simpa using h2⟩
        · exact Or.inr ⟨k + 1, by simp; omega, by omega, by simpa using h2⟩
    · have hfold : closestStepFold loc (bi, some b) i (step :: rest) =
          closestStepFold loc (bi, some b) (i + 1) rest := by
        simp only [closestStepFold]
        rw [if_neg hd]
      obtain ⟨rb, heq, hle, hall, hidx⟩ := ih bi (i + 1) b
      rw [hfold]
      refine ⟨rb, heq, hle, ?_, ?_⟩
      · intro s hs
        rcases List.mem_cons.mp hs with rfl | hs'
        · exact le_trans hle (le_of_not_lt hd)
        · exact hall s hs'
      · rcases hidx with ⟨h1, h2⟩ | ⟨k, hk, h1, h2⟩
        · exact Or.inl ⟨h1, h2⟩
        · exact Or.inr ⟨k + 1, by simp; omega, by omega, by simpa using h2⟩

lemma closestStepFold_nil (loc : ℝ × ℝ) (acc : ℕ × Option ℝ) (i : ℕ) :
    closestStepFold loc acc i [] = acc := rfl

lemma closestStepFold_cons_none (loc : ℝ × ℝ) (bi i : ℕ)
    (step : NavigationStepData) (rest : List NavigationStepData) :
    closestStepFold loc (bi, none) i (step :: rest) =
      closestStepFold loc (i, some (stepPlanarDistance loc step)) (i + 1) rest := rfl

lemma closestStepFold_cons_some (loc : ℝ × ℝ) (bi i : ℕ) (b : ℝ)
    (step : NavigationStepData) (rest : List NavigationStepData) :
    closestStepFold loc (bi, some b) i (step :: rest) =
      if stepPlanarDistance loc step < b then
        closestStepFold loc (i, some (stepPlanarDistance loc step)) (i + 1) rest
      else closestStepFold loc (bi, some b) (i + 1) rest := rfl

def demoStepA : NavigationStepData :=
  { defaultNavigationStep with
    instruction := "Head north", distance := 100, duration := 10
    maneuverLocation := (0, 0) }

def demoStepB : NavigationStepData :=
  { defaultNavigationStep with
    instruction := "Continue straight", distance := 200, duration := 20
    maneuverLocation := (0, 1) }

def demoStepC : NavigationStepData :=
  { defaultNavigationStep with
    instruction := "Arrive", distance := 50, duration := 5
    maneuverLocation := (0, 2) }

def demoRouteSteps : List NavigationStepData := [demoStepA, demoStepB, demoStepC]

noncomputable def demoSubject : ℝ × ℝ := (0, 0.9)

/-- Claim C4: for every active (non-empty) route the STEP 8 effect selects a
step index in range whose maneuver anchor is at minimum planar distance from
the subject, and the remaining distance (duration) is the sum of `distance`
(`duration`) over the steps from that index to the end inclusive; in
particular, on the straight 3-step route with maneuver points (0,0), (0,1),
(0,2) and the subject at (0, 0.9), the selected index is 1 and the remaining
distance is the sum of `steps[1..end].distance` = 200 + 50 = 250. -/
theorem nearest_step_progress :
    (∀ (steps : List NavigationStepData) (loc : ℝ × ℝ), steps ≠ [] →
      closestStepIndex steps loc < steps.length ∧
      (∀ s ∈ steps,
        stepPlanarDistance loc
            (steps.getD (closestStepIndex steps loc) defaultNavigationStep) ≤
          stepPlanarDistance loc s) ∧
      remainingDistance steps loc =
        ((steps.drop (closestStepIndex steps loc)).map
          NavigationStepData.distance).sum ∧
      remainingDuration steps loc =
        ((steps.drop (closestStepIndex steps loc)).map
          NavigationStepData.duration).sum) ∧
    (closestStepIndex demoRouteSteps demoSubject = 1 ∧
      remainingDistance demoRouteSteps demoSubject =
        ((demoRouteSteps.drop 1).map NavigationStepData.distance).sum ∧
      remainingDistance demoRouteSteps demoSubject = 250) := by
  have hgen : ∀ (steps : List NavigationStepData) (loc : ℝ × ℝ), steps ≠ [] →
      closestStepIndex steps loc < steps.length ∧
      (∀ s ∈ steps,
        stepPlanarDistance loc
            (steps.getD (closestStepIndex steps loc) defaultNavigationStep) ≤
          stepPlanarDistance loc s) := by
    intro steps loc hne
    obtain ⟨s0, rest, rfl⟩ : ∃ s0 rest, steps = s0 :: rest := by
      cases steps with
      | nil => exact absurd rfl hne
      | cons a l => exact ⟨a, l, rfl⟩
    have hstart : closestStepIndex (s0 :: rest) loc =
        (closestStepFold loc (0, some (stepPlanarDistance loc s0)) 1 rest).1 := by
      unfold closestStepIndex
      rw [closestStepFold_cons_none]
    obtain ⟨rb, heq, hle, hall, hidx⟩ :=
      closestStepFold_spec loc rest 0 1 (stepPlanarDistance loc s0)
    have hrb : stepPlanarDistance loc
        ((s0 :: rest).getD (closestStepIndex (s0 :: rest) loc)
          defaultNavigationStep) = rb := by
      rcases hidx with ⟨h1, h2⟩ | ⟨k, hk, h1, h2⟩
      · rw [hstart, h1]
        simpa using h2.symm
      · rw [hstart, h1]
        have : 1 + k = k + 1 := by omega
        rw [this, List.getD_cons_succ]
        exact h2.symm
    constructor
    · rcases hidx with ⟨h1, _⟩ | ⟨k, hk, h1, _⟩
      · rw [hstart, h1]; simp
      · rw [hstart, h1]; simp; omega
    · intro s hs
      rw [hrb]
      rcases List.mem_cons.mp hs with rfl | hs'
      · exact hle
      · exact hall s hs'
  refine ⟨?_, ?_⟩
  · intro steps loc hne
    refine ⟨(hgen steps loc hne).1, (hgen steps loc hne).2, ?_, ?_⟩
    · rw [remainingDistance, foldl_add_eq_sum]; ring
    · rw [remainingDuration, foldl_add_eq_sum]; ring
  · have hA : stepPlanarDistance demoSubject demoStepA = Real.sqrt 0.81 := by
      simp only [stepPlanarDistance, demoSubject, demoStepA, defaultNavigationStep]
      norm_num
    have hB : stepPlanarDistance demoSubject demoStepB = Real.sqrt 0.01 := by
      simp only [stepPlanarDistance, demoSubject, demoStepB, defaultNavigationStep]
      norm_num
    have hC : stepPlanarDistance demoSubject demoStepC = Real.sqrt 1.21 := by
      simp only [stepPlanarDistance, demoSubject, demoStepC, defaultNavigationStep]
      norm_num
    have hBA : stepPlanarDistance demoSubject demoStepB <
        stepPlanarDistance demoSubject demoStepA := by
      rw [hA, hB]
      exact Real.sqrt_lt_sqrt (by norm_num) (by norm_num)
    have hCB : ¬ stepPlanarDistance demoSubject demoStepC <
        stepPlanarDistance demoSubject demoStepB := by
      rw [hB, hC]
      exact not_lt.mpr (Real.sqrt_le_sqrt (by norm_num))
    have hidx : closestStepIndex demoRouteSteps demoSubject = 1 := by
      unfold closestStepIndex demoRouteSteps
      rw [closestStepFold_cons_none, closestStepFold_cons_some, if_pos hBA,
        closestStepFold_cons_some, if_neg hCB, closestStepFold_nil]
    refine ⟨hidx, ?_, ?_⟩
    · rw [remainingDistance, foldl_add_eq_sum, hidx]
      ring
    · rw [remainingDistance, foldl_add_eq_sum, hidx]
      simp [demoRouteSteps, demoStepB, demoStepC]
      norm_num

/-- Witness for C4: on the demo route the selected index is in range and the
remaining-duration aggregate matches the drop-and-sum form. -/
theorem nearest_step_progress_witness :
    closestStepIndex demoRouteSteps demoSubject < demoRouteSteps.length ∧
    remainingDuration demoRouteSteps demoSubject =
      ((demoRouteSteps.drop (closestStepIndex demoRouteSteps demoSubject)).map
        NavigationStepData.duration).sum := by
  have h := nearest_step_progress.1 demoRouteSteps demoSubject
    (by simp [demoRouteSteps])
  exact ⟨h.1, h.2.2.2⟩

/-! ## Position sampler

From `src/frontend/src/services/location.service.ts`.  `Math.atan2` and the
haversine `calculateDistance` are modelled over `ℝ`; comparisons on `ℝ` use
the classical order, so this section is `noncomputable` — exactly the
floating-point/transcendental part of the source.  `DEFAULT_CONFIG` carries
the 2 s / 10 s intervals and the 1.5 m/s motion threshold. -/

structure LocationPosition where
  latitude : ℝ
  longitude : ℝ
  /-- `null` when the GPS fix reports no speed. -/
  speed : Option ℝ
  /-- `null` when the GPS fix reports no heading. -/
  heading : Option ℝ
  accuracy : ℝ
  /-- milliseconds. -/
  timestamp : ℝ

structure LocationServiceConfig where
  movingSampleInterval : ℕ
  stationarySampleInterval : ℕ
  motionThreshold : ℝ
  enableHighAccuracy : Bool
  timeout : ℕ
  maximumAge : ℕ

def DEFAULT_CONFIG : LocationServiceConfig :=
  { movingSampleInterval := 2000
    stationarySampleInterval := 10000
    motionThreshold := 1.5
    enableHighAccuracy := true
    timeout := 10000
    maximumAge := 0 }

/-- `Math.atan2(y, x)` (standard JavaScript convention). -/
noncomputable def atan2 (y x : ℝ) : ℝ :=
  if 0 < x then Real.arctan (y / x)
  else if x < 0 then
    (if 0 ≤ y then Real.arctan (y / x) + Real.pi
     else Real.arctan (y / x) - Real.pi)
  else
    (if 0 < y then Real.pi / 2
     else if y < 0 then -(Real.pi / 2)
     else 0)

/-- `LocationService.calculateDistance` — the haversine formula with Earth
radius 6371e3 m. -/
noncomputable def calculateDistance (lat1 lon1 lat2 lon2 : ℝ) : ℝ :=
  let R : ℝ := 6371e3
  let phi1 := lat1 * Real.pi / 180
  let phi2 := lat2 * Real.pi / 180
  let dphi := (lat2 - lat1) * Real.pi / 180
  let dlam := (lon2 - lon1) * Real.pi / 180
  let a := Real.sin (dphi / 2) * Real.sin (dphi / 2) +
    Real.cos phi1 * Real.cos phi2 * (Real.sin (dlam / 2) * Real.sin (dlam / 2))
  let c := 2 * atan2 (Real.sqrt a) (Real.sqrt (1 - a))
  R * c

/-- The speed the fallback branch derives from the previous sample:
haversine distance over elapsed seconds, `0` when no time has elapsed. -/
noncomputable def calculatedFallbackSpeed (last p : LocationPosition) : ℝ :=
  let distance := calculateDistance last.latitude last.longitude
    p.latitude p.longitude
  let timeDelta := (p.timestamp - last.timestamp) / 1000
  if 0 < timeDelta then distance / timeDelta else 0

/-- `position.speed !== null && position.speed >= threshold`. -/
noncomputable def speedTest (threshold : ℝ) (speed : Option ℝ) : Bool :=
  match speed with
  | some s => decide (threshold ≤ s)
  | none => false

/-- `LocationService.updateMotionState`: the new `isMoving`.  Note the
source's `else if (this.lastPosition)`: the distance fallback runs whenever
the speed test fails — both when the speed is null AND when a reported
speed is below the threshold. -/
noncomputable def updateMotionState (threshold : ℝ)
    (lastPosition : Option LocationPosition) (p : LocationPosition) : Bool :=
  if speedTest threshold p.speed then true
  else
    match lastPosition with
    | some last => decide (threshold ≤ calculatedFallbackSpeed last p)
    | none => false

/-- Modelled from the spec's words for claim C6, for comparison with
`updateMotionState`: "moving" exactly when the reported speed is ≥ the
threshold, or — when the reported speed is unavailable (null) — when the
haversine distance over elapsed time is ≥ the threshold. -/
def specIsMoving (threshold : ℝ) (lastPosition : Option LocationPosition)
    (p : LocationPosition) : Prop :=
  (∃ s, p.speed = some s ∧ threshold ≤ s) ∨
  (p.speed = none ∧
    ∃ last, lastPosition = some last ∧ threshold ≤ calculatedFallbackSpeed last p)

/-- Claim C6 (amended): the subject is classified moving exactly when the
reported speed is ≥ the threshold, or when the speed test FAILS — the speed
is null or below the threshold — and a previous sample exists whose derived
haversine speed is ≥ the threshold; with no previous sample and a failing
speed test the subject is stationary. -/
theorem motion_classification (threshold : ℝ)
    (lastPosition : Option LocationPosition) (p : LocationPosition) :
    updateMotionState threshold lastPosition p = true ↔
      ((∃ s, p.speed = some s ∧ threshold ≤ s) ∨
        ((p.speed = none ∨ ∃ s, p.speed = some s ∧ s < threshold) ∧
          ∃ last, lastPosition = some last ∧
            threshold ≤ calculatedFallbackSpeed last p)) := by
  unfold updateMotionState speedTest
  cases hs : p.speed with
  | none =>
    cases lastPosition with
    | none => simp
    | some last => simp
  | some s =>
    by_cases hth : threshold ≤ s
    · cases lastPosition with
      | none => simp [hth]
      | some last => simp [hth]
    · cases lastPosition with
      | none => simp [hth, not_le.mp hth]
      | some last => simp [hth, not_le.mp hth]

noncomputable def c6Previous : LocationPosition :=
  { latitude := 0, longitude := 0, speed := none, heading := none
    accuracy := 5, timestamp := 0 }

noncomputable def c6Position : LocationPosition :=
  { latitude := 90, longitude := 0, speed := some 0, heading := none
    accuracy := 5, timestamp := 1000 }

/-- Haversine from the equator to the pole: a quarter great circle. -/
lemma calculateDistance_equator_pole :
    calculateDistance 0 0 90 0 = 6371e3 * (Real.pi / 2) := by
  unfold calculateDistance
  dsimp only
  have e1 : ((90 : ℝ) - 0) * Real.pi / 180 / 2 = Real.pi / 4 := by ring
  have e2 : (0 : ℝ) * Real.pi / 180 = 0 := by ring
  have e3 : (90 : ℝ) * Real.pi / 180 = Real.pi / 2 := by ring
  have e4 : ((0 : ℝ) - 0) * Real.pi / 180 / 2 = 0 := by ring
  rw [e1, e2, e3, e4, Real.cos_zero, Real.cos_pi_div_two, Real.sin_zero,
    Real.sin_pi_div_four]
  have e5 : Real.sqrt 2 / 2 * (Real.sqrt 2 / 2) + 1 * 0 * ((0 : ℝ) * 0) =
      1 / 2 := by
    have h2 : Real.sqrt 2 * Real.sqrt 2 = 2 := Real.mul_self_sqrt (by norm_num)
    rw [div_mul_div_comm, h2]
    norm_num
  rw [e5]
  have e6 : (1 : ℝ) - 1 / 2 = 1 / 2 := by norm_num
  rw [e6]
  have hpos : 0 < Real.sqrt (1 / 2) := Real.sqrt_pos.mpr (by norm_num)
  unfold atan2
  rw [if_pos hpos, div_self (ne_of_gt hpos), Real.arctan_one]
  ring

lemma c6_fallback_speed :
    calculatedFallbackSpeed c6Previous c6Position = 6371e3 * (Real.pi / 2) := by
  unfold calculatedFallbackSpeed c6Previous c6Position
  dsimp only
  have ht : ((1000 : ℝ) - 0) / 1000 = 1 := by norm_num
  rw [ht, if_pos (by norm_num : (0 : ℝ) < 1), calculateDistance_equator_pole]
  rw [div_one]

lemma c6_fallback_above_threshold :
    DEFAULT_CONFIG.motionThreshold ≤ calculatedFallbackSpeed c6Previous c6Position := by
  rw [c6_fallback_speed]
  show (1.5 : ℝ) ≤ 6371e3 * (Real.pi / 2)
  nlinarith [Real.pi_gt_three]

/-- Counterexample to C6 as stated: the subject reports an available speed
of 0 m/s — below the 1.5 m/s threshold, so the claim classifies it
stationary — yet `updateMotionState` classifies it as moving, because the
source's distance fallback runs whenever the speed test fails, not only
when the speed is unavailable. -/
theorem motion_classification_counterexample :
    c6Position.speed = some 0 ∧
    updateMotionState DEFAULT_CONFIG.motionThreshold (some c6Previous)
      c6Position = true ∧
    ¬ specIsMoving DEFAULT_CONFIG.motionThreshold (some c6Previous) c6Position := by
  refine ⟨rfl, ?_, ?_⟩
  · unfold updateMotionState speedTest
    have hs : c6Position.speed = some 0 := rfl
    rw [hs]
    dsimp only
    have hnot : ¬ (DEFAULT_CONFIG.motionThreshold ≤ (0 : ℝ)) := by
      show ¬ ((1.5 : ℝ) ≤ 0)
      norm_num
    rw [decide_eq_false hnot]
    simp only [Bool.false_eq_true, if_false]
    exact decide_eq_true c6_fallback_above_threshold
  · unfold specIsMoving
    rintro (⟨s, hs, hth⟩ | ⟨hnone, _⟩)
    · have : s = 0 := by
        have h0 : c6Position.speed = some 0 := rfl
        rw [h0] at hs
        exact (Option.some_inj.mp hs).symm
      rw [this] at hth
      revert hth
      show ¬ (DEFAULT_CONFIG.motionThreshold ≤ (0 : ℝ))
      show ¬ ((1.5 : ℝ) ≤ 0)
      norm_num
    · have h0 : c6Position.speed = some 0 := rfl
      rw [h0] at hnone
      exact Option.noConfusion hnone

/-! ### Sampler error branch (claim C7)

`startAdaptiveSampling`: the success callback classifies motion, stores the
position, notifies, and — while watching — schedules the next sample after
the moving/stationary interval; the error callback surfaces the parsed
error and — while watching — always schedules a retry after a fixed
5000 ms, with no case analysis on the error kind. -/

inductive LocationErrorCode where
  | PERMISSION_DENIED
  | POSITION_UNAVAILABLE
  | TIMEOUT
  | NOT_SUPPORTED
deriving DecidableEq

structure LocationError where
  code : LocationErrorCode
  message : String
deriving DecidableEq

def createError (code : LocationErrorCode) (message : String) : LocationError :=
  { code := code, message := message }

/-- `parseGeolocationError`, switching on the numeric
`GeolocationPositionError` code (1/2/3). -/
def parseGeolocationError (browserCode : ℕ) : LocationError :=
  if browserCode = 1 then
    createError .PERMISSION_DENIED "Location permission denied by user"
  else if browserCode = 2 then
    createError .POSITION_UNAVAILABLE "Location information unavailable"
  else if browserCode = 3 then
    createError .TIMEOUT "Location request timed out"
  else createError .POSITION_UNAVAILABLE "Unknown geolocation error"

structure SamplerState where
  isWatching : Bool
  isMoving : Bool
  lastPosition : Option LocationPosition

inductive SampleAttempt where
  | success (p : LocationPosition)
  | failure (browserCode : ℕ)

/-- Observable effect of one `getPosition` callback invocation. -/
structure SamplerStepResult where
  state : SamplerState
  /-- position delivered to `notifyCallbacks` (success only). -/
  emitted : Option LocationPosition
  /-- error delivered to `notifyErrorCallbacks`. -/
  surfacedError : Option LocationError
  /-- delay of the `setTimeout(getPosition, …)` scheduled, if any. -/
  nextDelayMs : Option ℕ

noncomputable def samplerStep (config : LocationServiceConfig)
    (s : SamplerState) : SampleAttempt → SamplerStepResult
  | .success p =>
    let moving := updateMotionState config.motionThreshold s.lastPosition p
    { state := { s with isMoving := moving, lastPosition := some p }
      emitted := some p
      surfacedError := none
      nextDelayMs :=
        if s.isWatching then
          some (if moving then config.movingSampleInterval
                else config.stationarySampleInterval)
        else none }
  | .failure browserCode =>
    { state := s
      emitted := none
      surfacedError := some (parseGeolocationError browserCode)
      nextDelayMs := if s.isWatching then some 5000 else none }

def c7State : SamplerState :=
  { isWatching := true, isMoving := false, lastPosition := none }

/-- Counterexample to C7 as stated: a `PERMISSION_DENIED` acquisition error
while watching does NOT stop the loop — a retry is scheduled after the
fixed 5000 ms backoff exactly as for any other error. -/
theorem sampler_error_recovery_counterexample :
    (samplerStep DEFAULT_CONFIG c7State (.failure 1)).surfacedError =
      some (createError .PERMISSION_DENIED "Location permission denied by user") ∧
    (samplerStep DEFAULT_CONFIG c7State (.failure 1)).nextDelayMs = some 5000 :=
  ⟨rfl, rfl⟩

/-- Claim C7 (amended): when a position acquisition attempt fails while the
loop is watching, the parsed error — of any kind, permission denial
included — is surfaced to the error callbacks and a retry is scheduled
after the fixed 5000 ms backoff; the sampler stops only when `isWatching`
has been cleared by `stopWatching`, in which case nothing is scheduled. -/
theorem sampler_error_retry (config : LocationServiceConfig)
    (s : SamplerState) (browserCode : ℕ) (hw : s.isWatching = true) :
    (samplerStep config s (.failure browserCode)).surfacedError =
      some (parseGeolocationError browserCode) ∧
    (samplerStep config s (.failure browserCode)).nextDelayMs = some 5000 ∧
    (samplerStep config s (.failure browserCode)).state = s ∧
    (samplerStep config s (.failure browserCode)).emitted = none := by
  unfold samplerStep
  simp [hw]

/-- Witness for the amended C7: a `POSITION_UNAVAILABLE` error (code 2)
while watching surfaces the error and schedules the 5-second retry. -/
theorem sampler_error_retry_witness :
    (samplerStep DEFAULT_CONFIG c7State (.failure 2)).surfacedError =
      some (parseGeolocationError 2) ∧
    (samplerStep DEFAULT_CONFIG c7State (.failure 2)).nextDelayMs = some 5000 ∧
    (samplerStep DEFAULT_CONFIG c7State (.failure 2)).state = c7State ∧
    (samplerStep DEFAULT_CONFIG c7State (.failure 2)).emitted = none :=
  sampler_error_retry DEFAULT_CONFIG c7State 2 rfl

/-! ## Stale-position check (MapView)

From `src/frontend/src/components/map/MapView.tsx`:
`STALE_LOCATION_THRESHOLD = 30000` and, in `updateMemberMarker`,
`locationAge = Date.now() - timestamp; locationAge > STALE_LOCATION_THRESHOLD`
marks the marker stale, otherwise unmarks it. -/

def STALE_LOCATION_THRESHOLD : ℤ := 30000

def isStaleLocation (nowMs timestampMs : ℤ) : Bool :=
  let locationAge := nowMs - timestampMs
  decide (locationAge > STALE_LOCATION_THRESHOLD)

/-- Claim C8: a member position older than the 30-second threshold is
classified stale, and one exactly 30 seconds old is classified fresh — the
strict `>` comparison makes the boundary inclusive on the fresh side. -/
theorem stale_position_boundary :
    (∀ nowMs timestampMs : ℤ, 30000 < nowMs - timestampMs →
      isStaleLocation nowMs timestampMs = true) ∧
    (∀ nowMs timestampMs : ℤ, nowMs - timestampMs = 30000 →
      isStaleLocation nowMs timestampMs = false) ∧
    (∀ nowMs timestampMs : ℤ,
      isStaleLocation nowMs timestampMs = true ↔
        STALE_LOCATION_THRESHOLD < nowMs - timestampMs) := by
  refine ⟨?_, ?_, ?_⟩
  · intro nowMs timestampMs h
    simp only [isStaleLocation, STALE_LOCATION_THRESHOLD, gt_iff_lt,
      decide_eq_true_eq]
    omega
  · intro nowMs timestampMs h
    simp only [isStaleLocation, STALE_LOCATION_THRESHOLD, gt_iff_lt,
      decide_eq_false_iff_not, not_lt]
    omega
  · intro nowMs timestampMs
    simp [isStaleLocation, STALE_LOCATION_THRESHOLD]

/-- Witness for C8: age 30001 ms is stale; age exactly 30000 ms is fresh. -/
theorem stale_position_boundary_witness :
    isStaleLocation 30001 0 = true ∧ isStaleLocation 30000 0 = false :=
  ⟨stale_position_boundary.1 30001 0 (by decide),
   stale_position_boundary.2.1 30000 0 (by decide)⟩
